import Mathlib

/-!
Verification of `src/pktfwd/utils.py` from radicale/hm-pktfwd.

The Python module is embedded shallowly: each function becomes a Lean
definition over explicit models of its effects.  Subprocess invocations
are modelled by `ProcResult` (the call returned with an exit code, or the
invocation itself raised); the filesystem is an association list from
paths to file contents; JSON documents are an inductive `Json` type; a
Python exception propagating out of a function is an `Except` error.
-/

namespace Pktfwd

/-- Constant from utils.py: seconds slept between retry attempts. -/
def LORA_PKT_FWD_RETRY_SLEEP_SECONDS : Nat := 2

/-- Constant from utils.py: maximum number of launch attempts. -/
def LORA_PKT_FWD_MAX_TRIES : Nat := 5

/-- Outcome of one `subprocess.run` call: either the call returned with an
exit code (`ret`), or the invocation itself raised a Python exception
(`raised`: cannot exec, binary missing, timeout, ...). -/
inductive ProcResult where
  | ret (exitCode : Int)
  | raised
deriving DecidableEq, Repr

/-- Python exception classes relevant to utils.py, collapsed to the cases
the code can raise. `keyError` is a `LookupError` subclass. -/
inductive PyError where
  | keyError
  | typeError
  | ioError
deriving DecidableEq, Repr

/-- Lookup in an association list keyed by strings: the model of reading a
Python dict entry (`d[k]`) that may be absent. -/
def assocLookup {β : Type} : List (String × β) → String → Option β
  | [], _ => none
  | (k0, v0) :: rest, k => if k0 = k then some v0 else assocLookup rest k

/-- Python dict assignment `d[k] = v`: replace in place if the key exists
(keeping its position), else append at the end. Also the model of writing
a file into the filesystem association list. -/
def setKey {β : Type} : List (String × β) → String → β → List (String × β)
  | [], k, v => [(k, v)]
  | (k0, v0) :: rest, k, v =>
      if k0 = k then (k0, v) :: rest else (k0, v0) :: setKey rest k v

/-- One invocation of the reset script: the script path and its two
command-line arguments ("stop"/"start" and the pin string). -/
structure ResetCall where
  script : String
  action : String
  pin : String
deriving DecidableEq, Repr

/-- Embedding of `run_reset_lgw`. The function selects the script for the
chip generation, converts the pin to a string, and issues two subprocess
calls whose exit codes it never reads; `exitStatus` is the environment
assigning an exit code to each call, and the returned list records the
calls made in order. -/
def run_reset_lgw (exitStatus : ResetCall → Int) (is_sx1302 : Bool)
    (sx1301_reset_lgw_filepath sx1302_reset_lgw_filepath : String)
    (reset_lgw_pin : Int) : List ResetCall :=
  let reset_lgw_filepath :=
    if is_sx1302 then sx1302_reset_lgw_filepath else sx1301_reset_lgw_filepath
  let reset_lgw_pin_str := toString reset_lgw_pin
  let firstCall : ResetCall := ⟨reset_lgw_filepath, "stop", reset_lgw_pin_str⟩
  let _ := exitStatus firstCall
  let secondCall : ResetCall := ⟨reset_lgw_filepath, "start", reset_lgw_pin_str⟩
  let _ := exitStatus secondCall
  [firstCall, secondCall]

/-- Embedding of the command list built in `is_concentrator_sx1302`:
`[util_chip_id_filepath, "-d", "/dev/<spi_bus>"]`. -/
def util_chip_id_cmd (util_chip_id_filepath spi_bus : String) : List String :=
  [util_chip_id_filepath, "-d", "/dev/" ++ spi_bus]

/-- Semantics of `subprocess.run(..., check=True)`: an invocation failure
propagates as an exception, a non-zero exit code raises
`CalledProcessError`, exit code 0 returns normally. -/
def subprocessRunCheck (r : ProcResult) : Except Unit Unit :=
  match r with
  | .raised => .error ()
  | .ret c => if c = 0 then .ok () else .error ()

/-- Embedding of `is_concentrator_sx1302`: run the chip-id diagnostic with
`check=True` and return `true` on normal return, `false` on any caught
exception (`except Exception: return False`). `invoke` is the environment
mapping a command line to its invocation outcome. -/
def is_concentrator_sx1302 (invoke : List String → ProcResult)
    (util_chip_id_filepath spi_bus : String) : Bool :=
  match subprocessRunCheck (invoke (util_chip_id_cmd util_chip_id_filepath spi_bus)) with
  | .ok _ => true
  | .error _ => false

/-- Embedding of `get_region_filename`: index the static
`REGION_CONFIG_FILENAMES` dict with the region. An absent key raises
`KeyError` (a `LookupError` subclass). The table itself lives in
`pktfwd/config/region_config_filenames.py` and is passed here as an
abstract association list. -/
def get_region_filename (REGION_CONFIG_FILENAMES : List (String × String))
    (region : String) : Except PyError String :=
  match assocLookup REGION_CONFIG_FILENAMES region with
  | some filename => .ok filename
  | none => .error .keyError

/-- A JSON document, the shape produced by Python's `json.load`. -/
inductive Json where
  | null
  | bool (b : Bool)
  | num (n : Int)
  | str (s : String)
  | arr (elems : List Json)
  | obj (fields : List (String × Json))
deriving Repr

/-- Read a field of a JSON document when it is an object. -/
def Json.getField (j : Json) (k : String) : Option Json :=
  match j with
  | .obj fields => assocLookup fields k
  | _ => none

/-- Python `new_global_conf['SX130x_conf']['com_dir'] = "/dev/%s" % spi_bus`.
Indexing a non-dict raises `TypeError`; a dict without the key raises
`KeyError`; item assignment on a non-dict raises `TypeError`; otherwise
the nested dict entry is updated in place. -/
def injectComDir (new_global_conf : Json) (spi_bus : String) :
    Except PyError Json :=
  match new_global_conf with
  | .obj fields =>
    match assocLookup fields "SX130x_conf" with
    | none => .error .keyError
    | some (.obj sub) =>
        .ok (.obj (setKey fields "SX130x_conf"
          (.obj (setKey sub "com_dir" (.str ("/dev/" ++ spi_bus))))))
    | some _ => .error .typeError
  | _ => .error .typeError

/-- Embedding of `replace_sx1302_global_conf_with_regional`. The
filesystem for the generation-B path is an association list from paths to
parsed JSON documents (the claims speak at document level). Reading a
missing file raises an I/O error; the destination is opened for writing
only after the injection succeeded, so any error short-circuits before
the write. -/
def replace_sx1302_global_conf_with_regional
    (REGION_CONFIG_FILENAMES : List (String × String))
    (sx1302_region_configs_dir region spi_bus : String)
    (fs : List (String × Json)) : Except PyError (List (String × Json)) :=
  match get_region_filename REGION_CONFIG_FILENAMES region with
  | .error e => .error e
  | .ok filename =>
    let region_config_filepath := sx1302_region_configs_dir ++ "/" ++ filename
    let global_config_filepath :=
      sx1302_region_configs_dir ++ "/" ++ "global_conf.json"
    match assocLookup fs region_config_filepath with
    | none => .error .ioError
    | some template =>
      match injectComDir template spi_bus with
      | .error e => .error e
      | .ok new_global_conf =>
          .ok (setKey fs global_config_filepath new_global_conf)

/-- The observable filesystem after running the generation-B
materialization: on an exception the write never happened, so the
filesystem is unchanged. -/
def sx1302MaterializeEffect (REGION_CONFIG_FILENAMES : List (String × String))
    (sx1302_region_configs_dir region spi_bus : String)
    (fs : List (String × Json)) : List (String × Json) :=
  match replace_sx1302_global_conf_with_regional REGION_CONFIG_FILENAMES
      sx1302_region_configs_dir region spi_bus fs with
  | .ok fsOut => fsOut
  | .error _ => fs

/-- Embedding of `replace_sx1301_global_conf_with_regional`. The
filesystem for the generation-A path maps paths to raw file contents
(byte strings); `copyfile` copies the bytes verbatim. A missing source
raises an I/O error. -/
def replace_sx1301_global_conf_with_regional
    (REGION_CONFIG_FILENAMES : List (String × String))
    (root_dir sx1301_region_configs_dir region : String)
    (fs : List (String × String)) : Except PyError (List (String × String)) :=
  match get_region_filename REGION_CONFIG_FILENAMES region with
  | .error e => .error e
  | .ok filename =>
    let region_config_filepath := sx1301_region_configs_dir ++ "/" ++ filename
    let global_config_filepath := root_dir ++ "/" ++ "global_conf.json"
    match assocLookup fs region_config_filepath with
    | none => .error .ioError
    | some content => .ok (setKey fs global_config_filepath content)

/-- Behaviour of one launch attempt, as seen by `retry_start_concentrator`:
the outcome of the `run_reset_lgw` call as a whole (a raise in either of
its subprocess calls propagates) and the outcome of the forwarder
`subprocess.run` call. -/
structure AttemptSpec where
  resetResult : ProcResult
  launchResult : ProcResult
deriving DecidableEq, Repr

/-- Observable events of the retry loop: `run_reset_lgw` was invoked, the
forwarder subprocess was invoked, or the loop slept for a backoff. -/
inductive Event where
  | resetInvoked
  | launchInvoked
  | slept (seconds : Nat)
deriving DecidableEq, Repr

/-- One attempt of the body of `retry_start_concentrator`: run the reset
(if its invocation raises, the exception propagates and the launch is
never reached), then invoke the forwarder binary; the attempt raises iff
that invocation raises, the exit code is never inspected. Returns the
events and whether the body returned normally. -/
def attemptRun (a : AttemptSpec) : List Event × Bool :=
  match a.resetResult with
  | .raised => ([.resetInvoked], false)
  | .ret _ =>
    match a.launchResult with
    | .raised => ([.resetInvoked, .launchInvoked], false)
    | .ret _ => ([.resetInvoked, .launchInvoked], true)

/-- Semantics of the tenacity decorator
`retry(wait=wait_fixed(2), stop=stop_after_attempt(5), ...)` around the
attempt body: run the attempt; on normal return stop with success; on an
exception, if attempts remain sleep the fixed backoff and retry, else let
the failure propagate (`RetryError`). `i` is the zero-based attempt
index, `r` the remaining attempt budget. -/
def retryAux (oracle : Nat → AttemptSpec) : Nat → Nat → List Event × Bool
  | _, 0 => ([], false)
  | i, r + 1 =>
    let step := attemptRun (oracle i)
    if step.2 then (step.1, true)
    else if r = 0 then (step.1, false)
    else
      let rest := retryAux oracle (i + 1) r
      (step.1 ++ Event.slept LORA_PKT_FWD_RETRY_SLEEP_SECONDS :: rest.1,
       rest.2)

/-- Embedding of `retry_start_concentrator`: the retried attempt with the
module's constants. The boolean is `true` when the call returns normally
and `false` when the retry budget is exhausted and the failure propagates
to the caller as an exception. -/
def retry_start_concentrator (oracle : Nat → AttemptSpec) :
    List Event × Bool :=
  retryAux oracle 0 LORA_PKT_FWD_MAX_TRIES

/-- Whether one attempt body returns normally. -/
def attemptSucceeds (a : AttemptSpec) : Bool := (attemptRun a).2

/-- Number of attempts the retry loop executes, defined directly from the
per-attempt outcomes: it stops after the first success, and never exceeds
the budget. -/
def attemptsMade (oracle : Nat → AttemptSpec) : Nat → Nat → Nat
  | _, 0 => 0
  | i, r + 1 =>
    if attemptSucceeds (oracle i) then 1
    else 1 + attemptsMade oracle (i + 1) r

/-- Number of `run_reset_lgw` invocations recorded in a trace. -/
def countResets : List Event → Nat
  | [] => 0
  | .resetInvoked :: rest => countResets rest + 1
  | _ :: rest => countResets rest

/-- Number of forwarder invocations recorded in a trace. -/
def countLaunches : List Event → Nat
  | [] => 0
  | .launchInvoked :: rest => countLaunches rest + 1
  | _ :: rest => countLaunches rest

/-- Number of sleeps of exactly `s` seconds recorded in a trace. -/
def countSleepsOf (s : Nat) : List Event → Nat
  | [] => 0
  | .slept t :: rest =>
      if t = s then countSleepsOf s rest + 1 else countSleepsOf s rest
  | _ :: rest => countSleepsOf s rest

/-! ## Helper lemmas -/

theorem assocLookup_setKey_self {β : Type} (l : List (String × β))
    (k : String) (v : β) : assocLookup (setKey l k v) k = some v := by
  induction l with
  | nil => simp [setKey, assocLookup]
  | cons hd tl ih =>
    obtain ⟨k0, v0⟩ := hd
    by_cases h : k0 = k <;> simp [setKey, assocLookup, h, ih]

theorem assocLookup_setKey_other {β : Type} (l : List (String × β))
    (k k2 : String) (v : β) (h : k2 ≠ k) :
    assocLookup (setKey l k v) k2 = assocLookup l k2 := by
  induction l with
  | nil =>
    simp [setKey, assocLookup]
    intro hk
    exact absurd hk.symm h
  | cons hd tl ih =>
    obtain ⟨k0, v0⟩ := hd
    by_cases hk : k0 = k
    · subst hk
      have hne : k0 ≠ k2 := fun hh => h hh.symm
      simp [setKey, assocLookup, hne]
    · simp [setKey, assocLookup, hk]
      by_cases hk2 : k0 = k2 <;> simp [hk2, ih]

/-! ## Claim theorems: reset script, chip detector, region resolver -/

/-- C7: for every chip generation and pin, `run_reset_lgw` selects the
generation-appropriate reset script, converts the pin to its string
representation, and invokes the script exactly twice in order — first
with "stop" and the pin string, then with "start" and the same pin
string — and its behaviour does not depend on the exit codes of the two
invocations. -/
theorem run_reset_lgw_spec (o1 o2 : ResetCall → Int) (is_sx1302 : Bool)
    (sx1301_path sx1302_path : String) (pin : Int) :
    run_reset_lgw o1 is_sx1302 sx1301_path sx1302_path pin =
      [⟨if is_sx1302 then sx1302_path else sx1301_path, "stop", toString pin⟩,
       ⟨if is_sx1302 then sx1302_path else sx1301_path, "start", toString pin⟩]
    ∧ run_reset_lgw o1 is_sx1302 sx1301_path sx1302_path pin =
        run_reset_lgw o2 is_sx1302 sx1301_path sx1302_path pin := by
  exact ⟨rfl, rfl⟩

/-- C5: the chip detector returns `true` iff the diagnostic invocation
against `/dev/<bus>` exits with status exactly 0; any non-zero exit or
invocation error yields `false`. Totality (it never throws) is expressed
by its `Bool` return type: every invocation outcome maps to a boolean. -/
theorem is_concentrator_sx1302_spec (invoke : List String → ProcResult)
    (util_chip_id_filepath spi_bus : String) :
    is_concentrator_sx1302 invoke util_chip_id_filepath spi_bus = true ↔
      invoke (util_chip_id_cmd util_chip_id_filepath spi_bus) =
        ProcResult.ret 0 := by
  unfold is_concentrator_sx1302 subprocessRunCheck
  cases h : invoke (util_chip_id_cmd util_chip_id_filepath spi_bus) with
  | ret c =>
    by_cases hc : c = 0
    · subst hc; simp
    · simp [hc]
  | raised => simp

/-- C6: for every region present in the mapping the resolver returns
exactly the configured filename; for every absent region it raises
`KeyError` (a `LookupError` subclass), and that error propagates
immediately out of either materializer, aborting before any retry loop
is reached. -/
theorem get_region_filename_spec (m : List (String × String)) (region : String) :
    (∀ filename, assocLookup m region = some filename →
      get_region_filename m region = Except.ok filename)
    ∧ (assocLookup m region = none →
        get_region_filename m region = Except.error PyError.keyError
        ∧ (∀ dir bus fs,
            replace_sx1302_global_conf_with_regional m dir region bus fs =
              Except.error PyError.keyError)
        ∧ (∀ root dir fs,
            replace_sx1301_global_conf_with_regional m root dir region fs =
              Except.error PyError.keyError)) := by
  constructor
  · intro filename h
    unfold get_region_filename
    rw [h]
  · intro h
    have hget : get_region_filename m region = Except.error PyError.keyError := by
      unfold get_region_filename
      rw [h]
    refine ⟨hget, ?_, ?_⟩
    · intro dir bus fs
      unfold replace_sx1302_global_conf_with_regional
      rw [hget]
    · intro root dir fs
      unfold replace_sx1301_global_conf_with_regional
      rw [hget]

/-- Witness for C6 at a concrete mapping: a present region resolves to
its filename, an absent region raises the lookup error. -/
theorem get_region_filename_spec_witness :
    get_region_filename [("US915", "US-global_conf.json")] "US915" =
      Except.ok "US-global_conf.json"
    ∧ get_region_filename [("US915", "US-global_conf.json")] "AS923" =
        Except.error PyError.keyError :=
  ⟨(get_region_filename_spec [("US915", "US-global_conf.json")] "US915").1
      "US-global_conf.json" rfl,
   ((get_region_filename_spec [("US915", "US-global_conf.json")] "AS923").2
      rfl).1⟩

/-! ## Claim theorems: configuration materialization -/

/-- C4: for every region present in the mapping, generation-A
materialization succeeds and the destination `<root>/global_conf.json`
holds contents identical to the source regional template. -/
theorem replace_sx1301_spec (m : List (String × String))
    (root_dir sx1301_region_configs_dir region filename content : String)
    (fs : List (String × String))
    (hm : assocLookup m region = some filename)
    (hf : assocLookup fs (sx1301_region_configs_dir ++ "/" ++ filename) =
      some content) :
    ∃ fsOut,
      replace_sx1301_global_conf_with_regional m root_dir
        sx1301_region_configs_dir region fs = Except.ok fsOut
      ∧ assocLookup fsOut (root_dir ++ "/" ++ "global_conf.json") =
          some content := by
  have hget : get_region_filename m region = Except.ok filename := by
    unfold get_region_filename
    rw [hm]
  refine ⟨setKey fs (root_dir ++ "/" ++ "global_conf.json") content, ?_, ?_⟩
  · unfold replace_sx1301_global_conf_with_regional
    rw [hget]
    simp only []
    rw [hf]
  · exact assocLookup_setKey_self fs (root_dir ++ "/" ++ "global_conf.json")
      content

/-- Witness for C4 at a concrete filesystem: the template bytes appear
verbatim at the destination. -/
theorem replace_sx1301_spec_witness :
    ∃ fsOut,
      replace_sx1301_global_conf_with_regional
        [("US915", "US.json")] "/opt/root" "/opt/cfgs" "US915"
        [("/opt/cfgs/US.json", "TEMPLATE-BYTES")] = Except.ok fsOut
      ∧ assocLookup fsOut ("/opt/root" ++ "/" ++ "global_conf.json") =
          some "TEMPLATE-BYTES" :=
  replace_sx1301_spec [("US915", "US.json")] "/opt/root" "/opt/cfgs"
    "US915" "US.json" "TEMPLATE-BYTES"
    [("/opt/cfgs/US.json", "TEMPLATE-BYTES")] rfl rfl

/-- C3: for every region in the mapping, bus, and regional template that
is a JSON object with an `SX130x_conf` sub-object, generation-B
materialization writes to `<dir>/global_conf.json` a document identical
to the template except that `SX130x_conf.com_dir` equals exactly
`/dev/<bus>`: every top-level field other than `SX130x_conf` is
unchanged, and inside `SX130x_conf` every field other than `com_dir` is
unchanged. -/
theorem replace_sx1302_spec (m : List (String × String))
    (sx1302_region_configs_dir region filename spi_bus : String)
    (fs : List (String × Json)) (fields sub : List (String × Json))
    (hm : assocLookup m region = some filename)
    (hf : assocLookup fs (sx1302_region_configs_dir ++ "/" ++ filename) =
      some (Json.obj fields))
    (hx : assocLookup fields "SX130x_conf" = some (Json.obj sub)) :
    ∃ fsOut result,
      replace_sx1302_global_conf_with_regional m sx1302_region_configs_dir
        region spi_bus fs = Except.ok fsOut
      ∧ assocLookup fsOut
          (sx1302_region_configs_dir ++ "/" ++ "global_conf.json") =
          some result
      ∧ (∀ k, k ≠ "SX130x_conf" →
          result.getField k = Json.getField (Json.obj fields) k)
      ∧ ∃ sub2, result.getField "SX130x_conf" = some (Json.obj sub2)
          ∧ assocLookup sub2 "com_dir" =
              some (Json.str ("/dev/" ++ spi_bus))
          ∧ (∀ k, k ≠ "com_dir" → assocLookup sub2 k = assocLookup sub k) := by
  have hget : get_region_filename m region = Except.ok filename := by
    unfold get_region_filename
    rw [hm]
  have hinj : injectComDir (Json.obj fields) spi_bus =
      Except.ok (Json.obj (setKey fields "SX130x_conf"
        (Json.obj (setKey sub "com_dir" (Json.str ("/dev/" ++ spi_bus)))))) := by
    unfold injectComDir
    simp only []
    rw [hx]
  refine ⟨setKey fs (sx1302_region_configs_dir ++ "/" ++ "global_conf.json")
      (Json.obj (setKey fields "SX130x_conf"
        (Json.obj (setKey sub "com_dir" (Json.str ("/dev/" ++ spi_bus)))))),
    Json.obj (setKey fields "SX130x_conf"
      (Json.obj (setKey sub "com_dir" (Json.str ("/dev/" ++ spi_bus))))),
    ?_, ?_, ?_, ?_⟩
  · unfold replace_sx1302_global_conf_with_regional
    rw [hget]
    simp only []
    rw [hf]
    simp only []
    rw [hinj]
  · exact assocLookup_setKey_self fs _ _
  · intro k hk
    simp only [Json.getField]
    exact assocLookup_setKey_other fields "SX130x_conf" k _ hk
  · refine ⟨setKey sub "com_dir" (Json.str ("/dev/" ++ spi_bus)), ?_, ?_, ?_⟩
    · simp only [Json.getField]
      exact assocLookup_setKey_self fields "SX130x_conf" _
    · exact assocLookup_setKey_self sub "com_dir" _
    · intro k hk
      exact assocLookup_setKey_other sub "com_dir" k _ hk

/-- Witness for C3 at a concrete template with a `gateway_conf` sibling
field and an existing `com_dir`: the sibling and the other sub-field
survive, and `com_dir` becomes `/dev/spidev1.2`. -/
theorem replace_sx1302_spec_witness :
    ∃ fsOut result,
      replace_sx1302_global_conf_with_regional
        [("EU868", "EU.json")] "/opt/sx1302" "EU868" "spidev1.2"
        [("/opt/sx1302/EU.json", Json.obj
          [("SX130x_conf", Json.obj
            [("com_dir", Json.str "/dev/old"), ("clksrc", Json.num 0)]),
           ("gateway_conf", Json.obj [("server", Json.str "example")])])] =
        Except.ok fsOut
      ∧ assocLookup fsOut ("/opt/sx1302" ++ "/" ++ "global_conf.json") =
          some result
      ∧ (∀ k, k ≠ "SX130x_conf" →
          result.getField k = Json.getField (Json.obj
            [("SX130x_conf", Json.obj
              [("com_dir", Json.str "/dev/old"), ("clksrc", Json.num 0)]),
             ("gateway_conf", Json.obj [("server", Json.str "example")])]) k)
      ∧ ∃ sub2, result.getField "SX130x_conf" = some (Json.obj sub2)
          ∧ assocLookup sub2 "com_dir" =
              some (Json.str ("/dev/" ++ "spidev1.2"))
          ∧ (∀ k, k ≠ "com_dir" → assocLookup sub2 k = assocLookup
              [("com_dir", Json.str "/dev/old"), ("clksrc", Json.num 0)] k) :=
  replace_sx1302_spec [("EU868", "EU.json")] "/opt/sx1302" "EU868"
    "EU.json" "spidev1.2"
    [("/opt/sx1302/EU.json", Json.obj
      [("SX130x_conf", Json.obj
        [("com_dir", Json.str "/dev/old"), ("clksrc", Json.num 0)]),
       ("gateway_conf", Json.obj [("server", Json.str "example")])])]
    [("SX130x_conf", Json.obj
      [("com_dir", Json.str "/dev/old"), ("clksrc", Json.num 0)]),
     ("gateway_conf", Json.obj [("server", Json.str "example")])]
    [("com_dir", Json.str "/dev/old"), ("clksrc", Json.num 0)]
    rfl rfl rfl

/-- C10: if the regional template is a JSON object without an
`SX130x_conf` sub-object (key missing, or its value not an object), the
generation-B materialization raises a `KeyError`/`TypeError` before the
destination is opened for writing, and the filesystem — in particular any
existing `global_conf.json` — is left unchanged. -/
theorem replace_sx1302_missing_key (m : List (String × String))
    (sx1302_region_configs_dir region filename spi_bus : String)
    (fs : List (String × Json)) (fields : List (String × Json))
    (hm : assocLookup m region = some filename)
    (hf : assocLookup fs (sx1302_region_configs_dir ++ "/" ++ filename) =
      some (Json.obj fields))
    (hx : ∀ sub, assocLookup fields "SX130x_conf" ≠ some (Json.obj sub)) :
    (∃ e, replace_sx1302_global_conf_with_regional m
        sx1302_region_configs_dir region spi_bus fs = Except.error e
      ∧ (e = PyError.keyError ∨ e = PyError.typeError))
    ∧ sx1302MaterializeEffect m sx1302_region_configs_dir region spi_bus fs =
        fs := by
  have hget : get_region_filename m region = Except.ok filename := by
    unfold get_region_filename
    rw [hm]
  have hinj : ∃ e, injectComDir (Json.obj fields) spi_bus = Except.error e
      ∧ (e = PyError.keyError ∨ e = PyError.typeError) := by
    unfold injectComDir
    simp only []
    cases hs : assocLookup fields "SX130x_conf" with
    | none => exact ⟨PyError.keyError, rfl, Or.inl rfl⟩
    | some v =>
      cases v with
      | obj sub => exact absurd hs (hx sub)
      | null => exact ⟨PyError.typeError, rfl, Or.inr rfl⟩
      | bool b => exact ⟨PyError.typeError, rfl, Or.inr rfl⟩
      | num n => exact ⟨PyError.typeError, rfl, Or.inr rfl⟩
      | str s => exact ⟨PyError.typeError, rfl, Or.inr rfl⟩
      | arr elems => exact ⟨PyError.typeError, rfl, Or.inr rfl⟩
  obtain ⟨e, he, hcase⟩ := hinj
  have hrep : replace_sx1302_global_conf_with_regional m
      sx1302_region_configs_dir region spi_bus fs = Except.error e := by
    unfold replace_sx1302_global_conf_with_regional
    rw [hget]
    simp only []
    rw [hf]
    simp only []
    rw [he]
  refine ⟨⟨e, hrep, hcase⟩, ?_⟩
  unfold sx1302MaterializeEffect
  rw [hrep]

/-- Witness for C10 at a concrete template whose `SX130x_conf` value is a
string: materialization errors out and the previously existing
`global_conf.json` contents survive untouched. -/
theorem replace_sx1302_missing_key_witness :
    (∃ e, replace_sx1302_global_conf_with_regional
        [("EU868", "EU.json")] "/opt/sx1302" "EU868" "spidev1.2"
        [("/opt/sx1302/EU.json", Json.obj [("SX130x_conf", Json.str "oops")]),
         ("/opt/sx1302/global_conf.json", Json.str "OLD")] = Except.error e
      ∧ (e = PyError.keyError ∨ e = PyError.typeError))
    ∧ sx1302MaterializeEffect [("EU868", "EU.json")] "/opt/sx1302" "EU868"
        "spidev1.2"
        [("/opt/sx1302/EU.json", Json.obj [("SX130x_conf", Json.str "oops")]),
         ("/opt/sx1302/global_conf.json", Json.str "OLD")] =
        [("/opt/sx1302/EU.json", Json.obj [("SX130x_conf", Json.str "oops")]),
         ("/opt/sx1302/global_conf.json", Json.str "OLD")] :=
  replace_sx1302_missing_key [("EU868", "EU.json")] "/opt/sx1302" "EU868"
    "EU.json" "spidev1.2"
    [("/opt/sx1302/EU.json", Json.obj [("SX130x_conf", Json.str "oops")]),
     ("/opt/sx1302/global_conf.json", Json.str "OLD")]
    [("SX130x_conf", Json.str "oops")]
    rfl rfl (fun _ h => nomatch h)

/-! ## Retry-loop lemmas -/

theorem retryAux_succ (oracle : Nat → AttemptSpec) (i r : Nat) :
    retryAux oracle i (r + 1) =
      if (attemptRun (oracle i)).2 then ((attemptRun (oracle i)).1, true)
      else if r = 0 then ((attemptRun (oracle i)).1, false)
      else ((attemptRun (oracle i)).1 ++
              Event.slept LORA_PKT_FWD_RETRY_SLEEP_SECONDS ::
                (retryAux oracle (i + 1) r).1,
            (retryAux oracle (i + 1) r).2) := rfl

theorem attemptsMade_succ (oracle : Nat → AttemptSpec) (i r : Nat) :
    attemptsMade oracle i (r + 1) =
      if attemptSucceeds (oracle i) then 1
      else 1 + attemptsMade oracle (i + 1) r := rfl

theorem countResets_append (a b : List Event) :
    countResets (a ++ b) = countResets a + countResets b := by
  induction a with
  | nil => simp [countResets]
  | cons hd tl ih =>
    cases hd <;> simp [countResets, ih]
    omega

theorem attemptRun_resets (a : AttemptSpec) :
    countResets (attemptRun a).1 = 1 := by
  obtain ⟨resetResult, launchResult⟩ := a
  cases resetResult <;> cases launchResult <;> rfl

theorem countResets_retryAux (oracle : Nat → AttemptSpec) (r : Nat) :
    ∀ i, countResets (retryAux oracle i r).1 = attemptsMade oracle i r := by
  induction r with
  | zero => intro i; rfl
  | succ r ih =>
    intro i
    rw [retryAux_succ, attemptsMade_succ]
    have hsucc : attemptSucceeds (oracle i) = (attemptRun (oracle i)).2 := rfl
    by_cases h : (attemptRun (oracle i)).2
    · simp [h, hsucc, attemptRun_resets]
    · by_cases hr : r = 0
      · subst hr
        simp [h, hsucc, attemptRun_resets, attemptsMade]
      · simp [h, hsucc, hr, countResets_append, attemptRun_resets,
          countResets, ih]

theorem attemptsMade_le (oracle : Nat → AttemptSpec) (r : Nat) :
    ∀ i, attemptsMade oracle i r ≤ r := by
  induction r with
  | zero => intro i; exact Nat.le_refl 0
  | succ r ih =>
    intro i
    rw [attemptsMade_succ]
    by_cases h : attemptSucceeds (oracle i)
    · simp [h]
    · simp [h]
      have := ih (i + 1)
      omega

theorem retryAux_allFail (oracle : Nat → AttemptSpec) (r : Nat) :
    ∀ i, (∀ k, k < r → attemptSucceeds (oracle (i + k)) = false) →
      (retryAux oracle i r).2 = false := by
  induction r with
  | zero => intro i _; rfl
  | succ r ih =>
    intro i h
    rw [retryAux_succ]
    have h0 : (attemptRun (oracle i)).2 = false := by
      have := h 0 (Nat.succ_pos r)
      simpa [attemptSucceeds] using this
    by_cases hr : r = 0
    · simp [h0, hr]
    · simp [h0, hr]
      apply ih
      intro k hk
      have heq : i + 1 + k = i + (k + 1) := by omega
      rw [heq]
      exact h (k + 1) (by omega)

/-! ## Claim theorems: the supervised retry launcher -/

/-- C1: for every configuration of per-attempt outcomes, the launcher
invokes the reset exactly once per attempt made (reset count equals the
number of attempts), makes at most `LORA_PKT_FWD_MAX_TRIES` attempts,
and when every attempt within the budget fails the call ends with the
failure propagating to the caller (`false` = the exhaustion exception is
raised, not swallowed). -/
theorem retry_start_concentrator_spec (oracle : Nat → AttemptSpec) :
    countResets (retry_start_concentrator oracle).1 =
      attemptsMade oracle 0 LORA_PKT_FWD_MAX_TRIES
    ∧ attemptsMade oracle 0 LORA_PKT_FWD_MAX_TRIES ≤ LORA_PKT_FWD_MAX_TRIES
    ∧ ((∀ k, k < LORA_PKT_FWD_MAX_TRIES →
          attemptSucceeds (oracle k) = false) →
        (retry_start_concentrator oracle).2 = false) := by
  refine ⟨countResets_retryAux oracle LORA_PKT_FWD_MAX_TRIES 0,
    attemptsMade_le oracle LORA_PKT_FWD_MAX_TRIES 0, ?_⟩
  intro h
  exact retryAux_allFail oracle LORA_PKT_FWD_MAX_TRIES 0
    (fun k hk => by simpa using h k hk)

/-- Witness for C1 at an oracle whose launch step always raises: five
resets, five attempts, and the failure propagates. -/
theorem retry_start_concentrator_spec_witness :
    countResets (retry_start_concentrator
        (fun _ => ⟨ProcResult.ret 0, ProcResult.raised⟩)).1 =
      attemptsMade (fun _ => ⟨ProcResult.ret 0, ProcResult.raised⟩) 0
        LORA_PKT_FWD_MAX_TRIES
    ∧ attemptsMade (fun _ => ⟨ProcResult.ret 0, ProcResult.raised⟩) 0
        LORA_PKT_FWD_MAX_TRIES ≤ LORA_PKT_FWD_MAX_TRIES
    ∧ (retry_start_concentrator
        (fun _ => ⟨ProcResult.ret 0, ProcResult.raised⟩)).2 = false :=
  ⟨(retry_start_concentrator_spec
      (fun _ => ⟨ProcResult.ret 0, ProcResult.raised⟩)).1,
   (retry_start_concentrator_spec
      (fun _ => ⟨ProcResult.ret 0, ProcResult.raised⟩)).2.1,
   (retry_start_concentrator_spec
      (fun _ => ⟨ProcResult.ret 0, ProcResult.raised⟩)).2.2
      (fun _ _ => rfl)⟩

/-- C2: with the module defaults (5 tries, 2-second backoff), when the
launch step of every attempt raises (for any reset exit codes), the loop
performs exactly 5 resets and 4 sleeps of 2 seconds, the sleeps sitting
exactly between consecutive attempts — none before the first, none after
the last — and the call ends with the failure propagating. -/
theorem retry_all_launch_failures_trace (resetCodes : Nat → Int) :
    retry_start_concentrator
        (fun i => ⟨ProcResult.ret (resetCodes i), ProcResult.raised⟩) =
      ([Event.resetInvoked, Event.launchInvoked, Event.slept 2,
        Event.resetInvoked, Event.launchInvoked, Event.slept 2,
        Event.resetInvoked, Event.launchInvoked, Event.slept 2,
        Event.resetInvoked, Event.launchInvoked, Event.slept 2,
        Event.resetInvoked, Event.launchInvoked], false)
    ∧ countResets (retry_start_concentrator
        (fun i => ⟨ProcResult.ret (resetCodes i), ProcResult.raised⟩)).1 = 5
    ∧ countSleepsOf 2 (retry_start_concentrator
        (fun i => ⟨ProcResult.ret (resetCodes i), ProcResult.raised⟩)).1 = 4 :=
  ⟨rfl, rfl, rfl⟩

/-- C8: an attempt whose reset step returned fails iff the forwarder
subprocess invocation itself raises; if that invocation returns, the
attempt succeeds whatever the child's exit status, and the launcher
returns normally right after its first successful attempt with no
further attempts (its trace is exactly that attempt's trace). -/
theorem launch_attempt_success_spec :
    (∀ (a : AttemptSpec) (c : Int), a.resetResult = ProcResult.ret c →
      ((attemptRun a).2 = true ↔ ∃ ec, a.launchResult = ProcResult.ret ec))
    ∧ (∀ oracle : Nat → AttemptSpec, attemptSucceeds (oracle 0) = true →
        retry_start_concentrator oracle = ((attemptRun (oracle 0)).1, true)) := by
  constructor
  · intro a c hc
    obtain ⟨resetResult, launchResult⟩ := a
    simp only [] at hc
    subst hc
    cases launchResult with
    | ret ec => simp [attemptRun]
    | raised => simp [attemptRun]
  · intro oracle h
    have h2 : (attemptRun (oracle 0)).2 = true := h
    show retryAux oracle 0 (4 + 1) = ((attemptRun (oracle 0)).1, true)
    rw [retryAux_succ]
    simp [h2]

/-- Witness for C8: an attempt whose forwarder invocation returns with
non-zero exit status 7 still succeeds, and the launcher stops after it. -/
theorem launch_attempt_success_spec_witness :
    (attemptRun ⟨ProcResult.ret 0, ProcResult.ret 7⟩).2 = true
    ∧ retry_start_concentrator
        (fun _ => ⟨ProcResult.ret 0, ProcResult.ret 7⟩) =
      ((attemptRun ⟨ProcResult.ret 0, ProcResult.ret 7⟩).1, true) :=
  ⟨(launch_attempt_success_spec.1 ⟨ProcResult.ret 0, ProcResult.ret 7⟩ 0
      rfl).2 ⟨7, rfl⟩,
   launch_attempt_success_spec.2
      (fun _ => ⟨ProcResult.ret 0, ProcResult.ret 7⟩) rfl⟩

/-- C9 counterexample: an attempt whose reset step raises (for instance
because the reset script file is missing) fails on its own at the reset
step — the launch step is never reached in that attempt — contradicting
the claim that a reset failure never fails the attempt and that such an
attempt still reaches the launch step. -/
theorem reset_raise_skips_launch_counterexample :
    attemptRun ⟨ProcResult.raised, ProcResult.ret 0⟩ =
      ([Event.resetInvoked], false)
    ∧ countLaunches (attemptRun ⟨ProcResult.raised, ProcResult.ret 0⟩).1 = 0 :=
  ⟨rfl, rfl⟩

/-- C9 amended: reset-script *exit-status* failures are never
independently detected — the attempt's behaviour is identical for any
two reset exit codes, and whenever the reset invocation returns the
launch step is reached exactly once, so a reset exit failure can only
surface as a downstream launch failure; and when the reset invocation
itself raises, the failed attempt drives the same retry path (backoff
sleep, then the next attempt). -/
theorem reset_failures_amended :
    (∀ (c1 c2 : Int) (l : ProcResult),
      attemptRun ⟨ProcResult.ret c1, l⟩ = attemptRun ⟨ProcResult.ret c2, l⟩)
    ∧ (∀ (c : Int) (l : ProcResult),
        countLaunches (attemptRun ⟨ProcResult.ret c, l⟩).1 = 1)
    ∧ (∀ oracle : Nat → AttemptSpec,
        (oracle 0).resetResult = ProcResult.raised →
        retry_start_concentrator oracle =
          (Event.resetInvoked ::
             Event.slept LORA_PKT_FWD_RETRY_SLEEP_SECONDS ::
               (retryAux oracle 1 4).1,
           (retryAux oracle 1 4).2)) := by
  refine ⟨?_, ?_, ?_⟩
  · intro c1 c2 l
    cases l <;> rfl
  · intro c l
    cases l <;> rfl
  · intro oracle h
    have ha : attemptRun (oracle 0) = ([Event.resetInvoked], false) := by
      unfold attemptRun
      rw [h]
    show retryAux oracle 0 (4 + 1) = _
    rw [retryAux_succ, ha]
    simp

/-- Witness for C9's amended claim: with a first attempt whose reset
invocation raises, the loop sleeps the backoff and moves to the next
attempt, which here succeeds. -/
theorem reset_failures_amended_witness :
    retry_start_concentrator
        (fun i => if i = 0 then ⟨ProcResult.raised, ProcResult.ret 0⟩
          else ⟨ProcResult.ret 0, ProcResult.ret 0⟩) =
      (Event.resetInvoked ::
         Event.slept LORA_PKT_FWD_RETRY_SLEEP_SECONDS ::
           (retryAux
             (fun i => if i = 0 then ⟨ProcResult.raised, ProcResult.ret 0⟩
               else ⟨ProcResult.ret 0, ProcResult.ret 0⟩) 1 4).1,
       (retryAux
         (fun i => if i = 0 then ⟨ProcResult.raised, ProcResult.ret 0⟩
           else ⟨ProcResult.ret 0, ProcResult.ret 0⟩) 1 4).2) :=
  reset_failures_amended.2.2
    (fun i => if i = 0 then ⟨ProcResult.raised, ProcResult.ret 0⟩
      else ⟨ProcResult.ret 0, ProcResult.ret 0⟩) rfl

end Pktfwd
